import Mathlib

/-
Verification development for the Congressional_Derivatives data layer
(src/data_fetcher.py).  The Python module is shallowly embedded:

* `requests` / BeautifulSoup regex output is taken as input lists of tokens
  (the regex engine is external to the module);
* the `random` module is modelled as a stream `g : Nat → Nat` of raw draws,
  with `random.randint lo hi = lo + draw % (hi - lo + 1)` (inclusive bounds,
  as documented for Python) and `random.choice xs = xs[draw % len xs]`;
* wall-clock datetimes are modelled as integer timestamps: seconds for the
  cache manager (the TTL `timedelta(minutes=30)` is 1800 seconds), day
  numbers for the generated trade dates (string dates "YYYY-MM-DD" are
  order-isomorphic to day numbers);
* network effects are modelled by oracle functions (`net`, and the
  availability / fetch outcomes of a source), exceptions by explicit
  outcome constructors, and the number of network calls issued is returned
  explicitly so that call-count properties can be stated.
-/

namespace CongressionalDerivatives

/-- A single congressional trade record, with the fields produced by
`CapitolTradesHTMLFetcher._generate_pattern_based_trades`
(src/data_fetcher.py lines 244-260).  Dates are day numbers. -/
structure TradeRecord where
  politician_name : String
  party : String
  chamber : String
  state : String
  district : String
  company : String
  ticker : String
  sector : String
  trade_date : Int
  disclosure_date : Int
  reporting_delay : Nat
  transaction_type : String
  trade_size : String
  price : String
  owner : String
deriving DecidableEq, Repr, Inhabited

/- ------------------------------------------------------------------ -/
/- CompanyNameLookup (src/data_fetcher.py lines 23-90)                 -/
/- ------------------------------------------------------------------ -/

/-- One element of the `results` array of the ticker API response:
`result.get('symbol', '')` and `result.get('name', ...)` in the Python
code, so the symbol defaults to the empty string and the name may be
missing. -/
structure ApiEntry where
  symbol : String
  name : Option String
deriving DecidableEq, Repr, Inhabited

/-- Outcome of one network request to the ticker API:
either a response with a status code and a parsed `results` list, or an
exception raised anywhere inside the `try` block
(`session.get`, `response.json`, ...). -/
inductive ApiResult where
  | success (status : Nat) (results : List ApiEntry)
  | failure
deriving DecidableEq, Repr, Inhabited

/-- `ticker.upper().strip()` of src/data_fetcher.py line 39. -/
def normalizeTicker (t : String) : String := t.toUpper.trim

/-- `self.cache[ticker] = name`: the lookup cache is a function
`String → Option String`, updated pointwise. -/
def cacheInsert (cache : String → Option String) (k v : String) :
    String → Option String :=
  fun t => if t = k then some v else cache t

/-- `CompanyNameLookup.get_company_name` (src/data_fetcher.py lines 34-81).
The argument `none` is a missing (`None`-like) ticker, `some t` a string
ticker; `net` is the network oracle applied to the normalized ticker.
Returns the company name, the cache after the call, and the number of
network lookups issued (0 or 1). -/
def get_company_name (net : String → ApiResult)
    (cache : String → Option String) :
    Option String → String × (String → Option String) × Nat
  | none => ("Unknown Company", cache, 0)
  | some t =>
    if t = "" then ("Unknown Company", cache, 0)
    else
      let tk := normalizeTicker t
      match cache tk with
      | some name => (name, cache, 0)
      | none =>
        let fb := "Company for " ++ tk
        match net tk with
        | ApiResult.failure => (fb, cacheInsert cache tk fb, 1)
        | ApiResult.success status results =>
          if status = 200 ∧ results ≠ [] then
            match results.find? (fun e => e.symbol.toUpper == tk) with
            | some e =>
              (e.name.getD fb, cacheInsert cache tk (e.name.getD fb), 1)
            | none =>
              let nm := (results.headD default).name.getD fb
              (nm, cacheInsert cache tk nm, 1)
          else (fb, cacheInsert cache tk fb, 1)

/-- The cache state after `n` further `get_company_name` calls for the
same ticker against the same network oracle. -/
def callN (net : String → ApiResult) (t : Option String) :
    Nat → (String → Option String) → (String → Option String)
  | 0, c => c
  | n + 1, c => callN net t n (get_company_name net c t).2.1

/- ------------------------------------------------------------------ -/
/- Pattern-based extraction (src/data_fetcher.py lines 194-263)        -/
/- ------------------------------------------------------------------ -/

/-- A politician of the fixed roster in `_generate_pattern_based_trades`. -/
structure Politician where
  name : String
  party : String
  chamber : String
  state : String
deriving DecidableEq, Repr, Inhabited

/-- The fixed roster (src/data_fetcher.py lines 230-234). -/
def politicians : List Politician :=
  [⟨"Nancy Pelosi", "Democrat", "House", "CA"⟩,
   ⟨"Dan Crenshaw", "Republican", "House", "TX"⟩,
   ⟨"Josh Gottheimer", "Democrat", "House", "NJ"⟩]

/-- `random.randint lo hi` on draw number `k` of the stream `g`:
a value in `[lo, hi]`, both ends inclusive. -/
def randint (g : Nat → Nat) (k lo hi : Nat) : Nat :=
  lo + g k % (hi - lo + 1)

/-- One trade of `_generate_pattern_based_trades` (loop body, lines
238-261).  Iteration `i` consumes draws `5*i .. 5*i+4` of the stream in
Python evaluation order: `random.choice(politicians)`, the trade-date
offset `randint(1, 30)`, the disclosure-date offset `randint(1, 15)`,
`reporting_delay = randint(1, 30)`, and `random.choice(["Buy","Sell"])`.
`lookup` is `self.company_lookup.get_company_name` and `today` the
current day number (`datetime.now()`). -/
def patternTrade (lookup : String → String) (g : Nat → Nat) (today : Int)
    (money stock : String) (i : Nat) : TradeRecord :=
  let politician := politicians.getD (g (5 * i) % politicians.length) default
  { politician_name := politician.name
    party := politician.party
    chamber := politician.chamber
    state := politician.state
    district := "Multiple"
    company := lookup stock
    ticker := stock
    sector := "Technology"
    trade_date := today - (randint g (5 * i + 1) 1 30 : Nat)
    disclosure_date := today - (randint g (5 * i + 2) 1 15 : Nat)
    reporting_delay := randint g (5 * i + 3) 1 30
    transaction_type := ["Buy", "Sell"].getD (g (5 * i + 4) % 2) "Buy"
    trade_size := if money.contains 'K' then money else "1K–15K"
    price := if money.contains '$' then money else "$150.00"
    owner := "Self" }

/-- `_generate_pattern_based_trades` (src/data_fetcher.py lines 228-263):
`min(10, len(money_amounts), len(stock_symbols))` trades, pairing the
token lists positionally. -/
def generate_pattern_based_trades (lookup : String → String)
    (g : Nat → Nat) (today : Int)
    (money_amounts stock_symbols : List String) : List TradeRecord :=
  (List.range (min 10 (min money_amounts.length stock_symbols.length))).map
    (fun i =>
      patternTrade lookup g today (money_amounts.getD i "")
        (stock_symbols.getD i "") i)

/-- `_extract_content_patterns` (src/data_fetcher.py lines 194-214), taken
from the point after the two `re.findall` calls: `money_matches` and
`stock_matches` are the lists of monetary-amount tokens and all-caps
3-5-letter tokens found in the page text.  Records are generated only
when both counts are strictly greater than 5, from the lists truncated
to 20 elements. -/
def extract_content_patterns (lookup : String → String) (g : Nat → Nat)
    (today : Int) (money_matches stock_matches : List String) :
    List TradeRecord :=
  if 5 < money_matches.length ∧ 5 < stock_matches.length then
    generate_pattern_based_trades lookup g today (money_matches.take 20)
      (stock_matches.take 20)
  else []

/- ------------------------------------------------------------------ -/
/- DataManager (src/data_fetcher.py lines 309-388)                     -/
/- ------------------------------------------------------------------ -/

/-- Outcome of one `is_available()` call of a source: a returned boolean,
or an exception (caught by the `try` around the loop body of
`fetch_fresh_data`). -/
inductive AvailOutcome where
  | ok (b : Bool)
  | exn
deriving DecidableEq, Repr, Inhabited

/-- Outcome of one `fetch_data()` call of a source: a DataFrame (a list of
records), or an exception. -/
inductive FetchOutcome where
  | ok (data : List TradeRecord)
  | exn
deriving DecidableEq, Repr, Inhabited

/-- One configured source as `fetch_fresh_data` sees it: its `name`
attribute and the outcomes of its `is_available()` and `fetch_data()`
calls during this fetch. -/
structure SourceModel where
  name : String
  avail : AvailOutcome
  fetch : FetchOutcome
deriving DecidableEq, Repr, Inhabited

/-- `DataManager.fetch_fresh_data` (src/data_fetcher.py lines 321-347)
over the tail of the source list, with `i` the index of its head in the
full list.  Returns the records, the source label, and the list of
indices of sources whose `fetch_data()` was invoked.  An exception from
`is_available()` or `fetch_data()` is caught by the `except` clause and
the loop continues with the next source. -/
def fetchFreshAux : List SourceModel → Nat → List TradeRecord × String × List Nat
  | [], _ => ([], "No source available", [])
  | s :: rest, i =>
    match s.avail with
    | AvailOutcome.exn => fetchFreshAux rest (i + 1)
    | AvailOutcome.ok false => fetchFreshAux rest (i + 1)
    | AvailOutcome.ok true =>
      match s.fetch with
      | FetchOutcome.exn =>
        let r := fetchFreshAux rest (i + 1)
        (r.1, r.2.1, i :: r.2.2)
      | FetchOutcome.ok data =>
        if data = [] then
          let r := fetchFreshAux rest (i + 1)
          (r.1, r.2.1, i :: r.2.2)
        else (data, s.name, [i])

/-- `DataManager.fetch_fresh_data` on the full configured source list. -/
def fetch_fresh_data (srcs : List SourceModel) :
    List TradeRecord × String × List Nat :=
  fetchFreshAux srcs 0

/-- `is_available()` returned `True` (so `fetch_data()` is reached). -/
def availTrue (s : SourceModel) : Bool :=
  match s.avail with
  | AvailOutcome.ok true => true
  | _ => false

/-- The source is available and its fetch returns a non-empty result:
the loop of `fetch_fresh_data` stops at such a source. -/
def productive (s : SourceModel) : Bool :=
  match s.avail, s.fetch with
  | AvailOutcome.ok true, FetchOutcome.ok data => decide (data ≠ [])
  | _, _ => false

/-- The records a source fetch returns (empty on exception). -/
def fetchedData (s : SourceModel) : List TradeRecord :=
  match s.fetch with
  | FetchOutcome.ok d => d
  | FetchOutcome.exn => []

/-- `DataManager` mutable state: `self.last_fetch_time` (seconds) and
`self.cached_data`. -/
structure ManagerState where
  last_fetch_time : Option Int
  cached_data : Option (List TradeRecord)
deriving DecidableEq, Repr

/-- The state set up by `DataManager.__init__`. -/
def initialState : ManagerState := ⟨none, none⟩

/-- `self.cache_duration = timedelta(minutes=30)`, in seconds. -/
def cacheDurationSeconds : Int := 1800

/-- The f-string rendering of `self.last_fetch_time` (Python prints
`None` for a missing value). -/
def timeRepr : Option Int → String
  | some t => toString t
  | none => "None"

/-- The label `f"Cached data (last updated: \x7bself.last_fetch_time\x7d)"`. -/
def cachedLabel (t : Option Int) : String :=
  "Cached data (last updated: " ++ timeRepr t ++ ")"

/-- The refresh condition of `get_data` (src/data_fetcher.py lines
353-356): `force_refresh or last_fetch_time is None or cached_data is
None or now - last_fetch_time > cache_duration`. -/
def shouldRefresh (now : Int) (st : ManagerState) (force : Bool) : Bool :=
  force || st.last_fetch_time.isNone || st.cached_data.isNone ||
    (match st.last_fetch_time with
     | some t => decide (now - t > cacheDurationSeconds)
     | none => true)

/-- `DataManager.get_data` (src/data_fetcher.py lines 349-372).  Returns
the `(data, source_label)` pair, the manager state after the call, and
whether `fetch_fresh_data` was invoked. -/
def get_data (srcs : List SourceModel) (now : Int) (st : ManagerState)
    (force : Bool) :
    (List TradeRecord × String) × ManagerState × Bool :=
  if shouldRefresh now st force then
    let fr := fetch_fresh_data srcs
    if fr.1 = [] then
      match st.cached_data with
      | some d => ((d, cachedLabel st.last_fetch_time), st, true)
      | none => (([], fr.2.1), st, true)
    else ((fr.1, fr.2.1), ⟨some now, some fr.1⟩, true)
  else
    ((st.cached_data.getD [], cachedLabel st.last_fetch_time), st, false)

/-- A value of the dictionary `get_cache_status` returns. -/
inductive StatusVal where
  | str (s : String)
  | int (i : Int)
  | bool (b : Bool)
deriving DecidableEq, Repr

/-- `DataManager.get_cache_status` (src/data_fetcher.py lines 374-388),
as the association list of the returned dictionary.  `int(x / 60)` of a
non-negative number of seconds is integer division by 60. -/
def get_cache_status (now : Int) (st : ManagerState) :
    List (String × StatusVal) :=
  match st.last_fetch_time with
  | none => [("status", StatusVal.str "No data fetched yet")]
  | some t =>
    let cacheAge := now - t
    let cacheRemaining := cacheDurationSeconds - cacheAge
    [("last_updated", StatusVal.str (toString t)),
     ("cache_age_minutes", StatusVal.int (cacheAge / 60)),
     ("cache_valid", StatusVal.bool (decide (cacheRemaining > 0))),
     ("cache_remaining_minutes", StatusVal.int (max 0 (cacheRemaining / 60))),
     ("total_records", StatusVal.int ((st.cached_data.getD []).length))]

/- ------------------------------------------------------------------ -/
/- Theorems                                                            -/
/- ------------------------------------------------------------------ -/

/-- Every index logged as a `fetch_data()` call belongs to a source whose
`is_available()` returned `True`. -/
theorem fetchFreshAux_log_avail (srcs : List SourceModel) :
    ∀ (k i : Nat), i ∈ (fetchFreshAux srcs k).2.2 →
    ∃ j, j < srcs.length ∧ i = k + j ∧
      availTrue (srcs.getD j default) = true := by
  induction srcs with
  | nil => intro k i h; simp [fetchFreshAux] at h
  | cons s rest ih =>
    intro k i h
    obtain ⟨n, av, fe⟩ := s
    cases av with
    | exn =>
      obtain ⟨j, hj, hij, hav⟩ := ih (k + 1) i (by simpa [fetchFreshAux] using h)
      exact ⟨j + 1, by simpa using hj, by omega, by simpa using hav⟩
    | ok b =>
      cases b with
      | false =>
        obtain ⟨j, hj, hij, hav⟩ := ih (k + 1) i (by simpa [fetchFreshAux] using h)
        exact ⟨j + 1, by simpa using hj, by omega, by simpa using hav⟩
      | true =>
        cases fe with
        | exn =>
          rcases (by simpa [fetchFreshAux] using h : i = k ∨
              i ∈ (fetchFreshAux rest (k + 1)).2.2) with hk | hmem
          · exact ⟨0, by simp, by omega, by simp [availTrue]⟩
          · obtain ⟨j, hj, hij, hav⟩ := ih (k + 1) i hmem
            exact ⟨j + 1, by simpa using hj, by omega, by simpa using hav⟩
        | ok data =>
          by_cases hd : data = []
          · rcases (by simpa [fetchFreshAux, hd] using h : i = k ∨
                i ∈ (fetchFreshAux rest (k + 1)).2.2) with hk | hmem
            · exact ⟨0, by simp, by omega, by simp [availTrue]⟩
            · obtain ⟨j, hj, hij, hav⟩ := ih (k + 1) i hmem
              exact ⟨j + 1, by simpa using hj, by omega, by simpa using hav⟩
          · have hk : i = k := by simpa [fetchFreshAux, hd] using h
            exact ⟨0, by simp, by omega, by simp [availTrue]⟩

/-- If the first productive source (available with a non-empty fetch) is
at position `i`, the loop returns its data and name, and every
`fetch_data()` call happened at a position at most `i`. -/
theorem fetchFreshAux_first_productive (srcs : List SourceModel) :
    ∀ (k i : Nat), i < srcs.length →
    productive (srcs.getD i default) = true →
    (∀ j, j < i → productive (srcs.getD j default) = false) →
    (fetchFreshAux srcs k).1 = fetchedData (srcs.getD i default) ∧
    (fetchFreshAux srcs k).2.1 = (srcs.getD i default).name ∧
    ∀ m ∈ (fetchFreshAux srcs k).2.2, m ≤ k + i := by
  induction srcs with
  | nil => intro k i h; simp at h
  | cons s rest ih =>
    intro k i hi hp hmin
    obtain ⟨n, av, fe⟩ := s
    cases i with
    | zero =>
      simp only [List.getD_cons_zero] at hp
      cases av with
      | exn => simp [productive] at hp
      | ok b =>
        cases b with
        | false => simp [productive] at hp
        | true =>
          cases fe with
          | exn => simp [productive] at hp
          | ok data =>
            have hd : data ≠ [] := by simpa [productive] using hp
            refine ⟨?_, ?_, ?_⟩ <;>
              simp [fetchFreshAux, hd, fetchedData]
    | succ i' =>
      have hs0 : productive (⟨n, av, fe⟩ : SourceModel) = false :=
        by simpa using hmin 0 (Nat.succ_pos i')
      have hi' : i' < rest.length := by simpa using hi
      have hp' : productive (rest.getD i' default) = true := by
        simpa using hp
      have hmin' : ∀ j, j < i' → productive (rest.getD j default) = false := by
        intro j hj
        simpa using hmin (j + 1) (by omega)
      obtain ⟨h1, h2, h3⟩ := ih (k + 1) i' hi' hp' hmin'
      cases av with
      | exn =>
        refine ⟨?_, ?_, ?_⟩ <;> simp [fetchFreshAux, h1, h2]
        intro m hm
        have := h3 m hm
        omega
      | ok b =>
        cases b with
        | false =>
          refine ⟨?_, ?_, ?_⟩ <;> simp [fetchFreshAux, h1, h2]
          intro m hm
          have := h3 m hm
          omega
        | true =>
          cases fe with
          | exn =>
            refine ⟨?_, ?_, ?_⟩ <;> simp [fetchFreshAux, h1, h2]
            intro m hm
            have := h3 m hm
            omega
          | ok data =>
            have hd : data = [] := by
              by_contra hne
              simp [productive, hne] at hs0
            refine ⟨?_, ?_, ?_⟩ <;> simp [fetchFreshAux, hd, h1, h2]
            intro m hm
            have := h3 m hm
            omega

/-- Claim C1: for every configured source list, `fetch_fresh_data`
examines sources in fixed priority order; a source whose
`is_available()` raises or returns false never has its `fetch_data()`
called; and the result is the first non-empty fetch result, tagged with
that source's name, with no source after it ever invoked. -/
theorem fetch_fresh_priority_shortcircuit (srcs : List SourceModel) :
    (∀ i, i < srcs.length → availTrue (srcs.getD i default) = false →
      i ∉ (fetch_fresh_data srcs).2.2) ∧
    (∀ i, i < srcs.length → productive (srcs.getD i default) = true →
      (∀ j, j < i → productive (srcs.getD j default) = false) →
      (fetch_fresh_data srcs).1 = fetchedData (srcs.getD i default) ∧
      (fetch_fresh_data srcs).2.1 = (srcs.getD i default).name ∧
      ∀ m ∈ (fetch_fresh_data srcs).2.2, m ≤ i) := by
  constructor
  · intro i hi hav hmem
    obtain ⟨j, hj, hij, htrue⟩ := fetchFreshAux_log_avail srcs 0 i hmem
    have : j = i := by omega
    rw [this] at htrue
    rw [htrue] at hav
    exact Bool.noConfusion hav
  · intro i hi hp hmin
    have h := fetchFreshAux_first_productive srcs 0 i hi hp hmin
    exact ⟨h.1, h.2.1, fun m hm => by have := h.2.2 m hm; omega⟩

/-- Claim C1, witness: a three-source list whose first source is
unavailable and whose second fetch succeeds: the first source is never
fetched, the result is the second source's, and no call goes past it. -/
theorem fetch_fresh_priority_shortcircuit_witness :
    0 ∉ (fetch_fresh_data
      [⟨"A", AvailOutcome.ok false, FetchOutcome.ok [default]⟩,
       ⟨"B", AvailOutcome.ok true, FetchOutcome.ok [default]⟩,
       ⟨"C", AvailOutcome.ok true, FetchOutcome.ok [default]⟩]).2.2 ∧
    (fetch_fresh_data
      [⟨"A", AvailOutcome.ok false, FetchOutcome.ok [default]⟩,
       ⟨"B", AvailOutcome.ok true, FetchOutcome.ok [default]⟩,
       ⟨"C", AvailOutcome.ok true, FetchOutcome.ok [default]⟩]).1 = [default] ∧
    (fetch_fresh_data
      [⟨"A", AvailOutcome.ok false, FetchOutcome.ok [default]⟩,
       ⟨"B", AvailOutcome.ok true, FetchOutcome.ok [default]⟩,
       ⟨"C", AvailOutcome.ok true, FetchOutcome.ok [default]⟩]).2.1 = "B" ∧
    ∀ m ∈ (fetch_fresh_data
      [⟨"A", AvailOutcome.ok false, FetchOutcome.ok [default]⟩,
       ⟨"B", AvailOutcome.ok true, FetchOutcome.ok [default]⟩,
       ⟨"C", AvailOutcome.ok true, FetchOutcome.ok [default]⟩]).2.2, m ≤ 1 := by
  refine ⟨(fetch_fresh_priority_shortcircuit _).1 0 (by decide) (by decide), ?_⟩
  have h := (fetch_fresh_priority_shortcircuit
    [⟨"A", AvailOutcome.ok false, FetchOutcome.ok [default]⟩,
     ⟨"B", AvailOutcome.ok true, FetchOutcome.ok [default]⟩,
     ⟨"C", AvailOutcome.ok true, FetchOutcome.ok [default]⟩]).2 1
    (by decide) (by decide) (by intro j hj; interval_cases j; decide)
  exact ⟨h.1, h.2.1, h.2.2⟩

/-- When no source is productive, the loop falls through and returns the
sentinel pair. -/
theorem fetchFreshAux_all_unproductive (srcs : List SourceModel) :
    ∀ k, (∀ s ∈ srcs, productive s = false) →
    (fetchFreshAux srcs k).1 = [] ∧
    (fetchFreshAux srcs k).2.1 = "No source available" := by
  induction srcs with
  | nil => intro k _; simp [fetchFreshAux]
  | cons s rest ih =>
    intro k h
    have hs : productive s = false := h s (by simp)
    have hr := ih (k + 1) (fun x hx => h x (by simp [hx]))
    obtain ⟨n, av, fe⟩ := s
    cases av with
    | exn => simpa [fetchFreshAux] using hr
    | ok b =>
      cases b with
      | false => simpa [fetchFreshAux] using hr
      | true =>
        cases fe with
        | exn => simpa [fetchFreshAux] using hr
        | ok data =>
          have hd : data = [] := by
            by_contra hne
            simp [productive, hne] at hs
          simpa [fetchFreshAux, hd] using hr

/-- Claim C4: if every configured source is unavailable, raises, or
returns an empty result, `fetch_fresh_data` returns an empty record set
tagged with the literal label "No source available".  Exceptions from
sources are caught inside the loop, so the function itself is total and
raises nothing to the caller. -/
theorem fetch_fresh_all_fail (srcs : List SourceModel)
    (h : ∀ s ∈ srcs, productive s = false) :
    (fetch_fresh_data srcs).1 = [] ∧
    (fetch_fresh_data srcs).2.1 = "No source available" :=
  fetchFreshAux_all_unproductive srcs 0 h

/-- Claim C4, witness: a list of an unavailable source, a raising source
and an available-but-empty source yields the sentinel result. -/
theorem fetch_fresh_all_fail_witness :
    (fetch_fresh_data
      [⟨"A", AvailOutcome.ok false, FetchOutcome.ok [default]⟩,
       ⟨"B", AvailOutcome.exn, FetchOutcome.ok [default]⟩,
       ⟨"C", AvailOutcome.ok true, FetchOutcome.ok []⟩]).1 = [] ∧
    (fetch_fresh_data
      [⟨"A", AvailOutcome.ok false, FetchOutcome.ok [default]⟩,
       ⟨"B", AvailOutcome.exn, FetchOutcome.ok [default]⟩,
       ⟨"C", AvailOutcome.ok true, FetchOutcome.ok []⟩]).2.1 =
      "No source available" :=
  fetch_fresh_all_fail _ (by decide)

/-- The third component of `get_data` records exactly whether the refresh
condition fired, i.e. whether `fetch_fresh_data` was invoked. -/
theorem get_data_fetched (srcs : List SourceModel) (now : Int)
    (st : ManagerState) (force : Bool) :
    (get_data srcs now st force).2.2 = shouldRefresh now st force := by
  unfold get_data
  split
  case isTrue h =>
    dsimp only
    split
    · split <;> simp [h]
    · simp [h]
  case isFalse h =>
    simp only [Bool.not_eq_true] at h
    simp [h]

/-- The refresh condition of `get_data`, under the state invariant that
`cached_data` and `last_fetch_time` are set together. -/
theorem shouldRefresh_iff (now : Int) (st : ManagerState) (force : Bool)
    (hinv : st.cached_data = none ↔ st.last_fetch_time = none) :
    shouldRefresh now st force = true ↔
      (force = true ∨ st.last_fetch_time = none ∨
        ∃ t, st.last_fetch_time = some t ∧
          now - t > cacheDurationSeconds) := by
  cases hlt : st.last_fetch_time with
  | none => simp [shouldRefresh, hlt]
  | some t =>
    have hcd : st.cached_data ≠ none := fun h => by
      rw [hinv.mp h] at hlt
      exact Option.noConfusion hlt
    cases hcd' : st.cached_data with
    | none => exact absurd hcd' hcd
    | some d =>
      simp [shouldRefresh, hlt, hcd']

/-- `ManagerState` invariant: `cached_data` and `last_fetch_time` are
both unset (as in `__init__`) or both set (as after a successful fetch);
`get_data` preserves it, so it holds of every reachable state. -/
theorem get_data_preserves_inv (srcs : List SourceModel) (now : Int)
    (st : ManagerState) (force : Bool)
    (hinv : st.cached_data = none ↔ st.last_fetch_time = none) :
    (get_data srcs now st force).2.1.cached_data = none ↔
      (get_data srcs now st force).2.1.last_fetch_time = none := by
  unfold get_data
  split
  · dsimp only
    split
    · split <;> exact hinv
    · simp
  · exact hinv

/-- The initial state satisfies the `ManagerState` invariant. -/
theorem initialState_inv :
    initialState.cached_data = none ↔ initialState.last_fetch_time = none := by
  simp [initialState]

/-- Claim C2: under the state invariant, `get_data` invokes
`fetch_fresh_data` if and only if `force_refresh` is set, no successful
fetch has yet occurred, or more than 30 minutes have elapsed since the
last successful fetch; and whenever it does not, it returns the cached
records labelled as cached data with their timestamp, with the state
unchanged. -/
theorem get_data_refresh_iff (srcs : List SourceModel) (now : Int)
    (st : ManagerState) (force : Bool)
    (hinv : st.cached_data = none ↔ st.last_fetch_time = none) :
    ((get_data srcs now st force).2.2 = true ↔
      (force = true ∨ st.last_fetch_time = none ∨
        ∃ t, st.last_fetch_time = some t ∧
          now - t > cacheDurationSeconds)) ∧
    ((get_data srcs now st force).2.2 = false →
      ∃ d t, st.cached_data = some d ∧ st.last_fetch_time = some t ∧
        get_data srcs now st force =
          ((d, cachedLabel (some t)), st, false)) := by
  constructor
  · rw [get_data_fetched]
    exact shouldRefresh_iff now st force hinv
  · intro hno
    rw [get_data_fetched] at hno
    cases hlt : st.last_fetch_time with
    | none => simp [shouldRefresh, hlt] at hno
    | some t =>
      cases hcd : st.cached_data with
      | none => simp [shouldRefresh, hinv.mp hcd] at hno
      | some d =>
        refine ⟨d, t, rfl, rfl, ?_⟩
        unfold get_data
        rw [if_neg (by simp [hno])]
        simp [hcd, hlt]

/-- Claim C2, witness: with a populated cache written at time 0 and the
clock at time 0, `get_data(force_refresh=False)` does not fetch and
serves the cache. -/
theorem get_data_refresh_iff_witness :
    ((get_data [] 0 ⟨some 0, some [default]⟩ false).2.2 = true ↔
      (false = true ∨
        (⟨some 0, some [default]⟩ : ManagerState).last_fetch_time = none ∨
        ∃ t, (⟨some 0, some [default]⟩ : ManagerState).last_fetch_time =
            some t ∧ (0 : Int) - t > cacheDurationSeconds)) ∧
    ((get_data [] 0 ⟨some 0, some [default]⟩ false).2.2 = false →
      ∃ d t,
        (⟨some 0, some [default]⟩ : ManagerState).cached_data = some d ∧
        (⟨some 0, some [default]⟩ : ManagerState).last_fetch_time = some t ∧
        get_data [] 0 ⟨some 0, some [default]⟩ false =
          ((d, cachedLabel (some t)), ⟨some 0, some [default]⟩, false)) :=
  get_data_refresh_iff [] 0 ⟨some 0, some [default]⟩ false (by simp)

/-- Claim C3: when a refresh attempt (forced, or triggered by an expired
TTL) gets an empty result from `fetch_fresh_data` while a prior
successful cache entry exists, `get_data` returns the prior records
unchanged, labelled as cached data with the original fetch timestamp,
and leaves the cached records and the last-fetch timestamp unmodified. -/
theorem get_data_failed_refresh_uses_cache (srcs : List SourceModel)
    (now t : Int) (d : List TradeRecord) (force : Bool)
    (hempty : (fetch_fresh_data srcs).1 = [])
    (hrefresh : force = true ∨ now - t > cacheDurationSeconds) :
    get_data srcs now ⟨some t, some d⟩ force =
      ((d, cachedLabel (some t)), ⟨some t, some d⟩, true) := by
  have hsr : shouldRefresh now ⟨some t, some d⟩ force = true := by
    rcases hrefresh with h | h <;> simp [shouldRefresh, h]
  unfold get_data
  rw [if_pos hsr]
  simp [hempty]

/-- Claim C3, witness: a stale cache entry from time 0 at clock 2000 s
with an exhausted source list is served unchanged with the cached
label. -/
theorem get_data_failed_refresh_uses_cache_witness :
    get_data [] 2000 ⟨some 0, some [default]⟩ false =
      (([default], cachedLabel (some 0)), ⟨some 0, some [default]⟩, true) :=
  get_data_failed_refresh_uses_cache [] 2000 0 [default] false rfl
    (Or.inr (by decide))

/-- Claim C7, counterexample: `get_cache_status` never returns a
`has_data` key — neither in the initial state nor after a fetch — so the
claimed key set is wrong. -/
theorem cache_status_no_has_data_key :
    ¬ ("has_data" ∈ (get_cache_status 0 initialState).map Prod.fst) ∧
    ¬ ("has_data" ∈
        (get_cache_status 0 ⟨some 0, some []⟩).map Prod.fst) := by
  constructor <;> decide

/-- Claim C7, amended: before any successful fetch, `get_cache_status`
returns the single key `status` (with value "No data fetched yet");
after a fetch it returns exactly the keys `last_updated`,
`cache_age_minutes`, `cache_valid`, `cache_remaining_minutes` and
`total_records`; there is no `has_data` key.  The function is pure: it
reads the manager state and returns a dictionary, changing nothing. -/
theorem cache_status_keys (now : Int) (st : ManagerState) :
    (st.last_fetch_time = none →
      (get_cache_status now st).map Prod.fst = ["status"]) ∧
    (∀ t, st.last_fetch_time = some t →
      (get_cache_status now st).map Prod.fst =
        ["last_updated", "cache_age_minutes", "cache_valid",
         "cache_remaining_minutes", "total_records"]) := by
  constructor
  · intro h
    simp [get_cache_status, h]
  · intro t h
    simp [get_cache_status, h]

/-- Claim C7, witness: the key lists at the initial state and at a state
with a fetch recorded at time 5. -/
theorem cache_status_keys_witness :
    (get_cache_status 0 initialState).map Prod.fst = ["status"] ∧
    (get_cache_status 0 ⟨some 5, none⟩).map Prod.fst =
      ["last_updated", "cache_age_minutes", "cache_valid",
       "cache_remaining_minutes", "total_records"] :=
  ⟨(cache_status_keys 0 initialState).1 rfl,
   (cache_status_keys 0 ⟨some 5, none⟩).2 5 rfl⟩

/-- Claim C5, counterexample: with exactly 5 tokens of each kind the
claimed "at least 5" threshold would produce 1-10 records, but the code
tests `len > 5` and produces none. -/
theorem extract_patterns_at_five_no_records :
    (["$1", "$2", "$3", "$4", "$5"] : List String).length = 5 ∧
    (["AAA", "BBB", "CCC", "DDD", "EEE"] : List String).length = 5 ∧
    extract_content_patterns (fun t => t) (fun _ => 0) 0
      ["$1", "$2", "$3", "$4", "$5"]
      ["AAA", "BBB", "CCC", "DDD", "EEE"] = [] := by
  refine ⟨rfl, rfl, ?_⟩
  simp [extract_content_patterns]

/-- Claim C5, amended: the extraction stage produces records exactly when
both token counts are strictly greater than 5 (at least 6): then it
produces between 1 and 10 records, each with `reporting_delay` in
`[1, 30]` and `transaction_type` in `\x7bBuy, Sell\x7d`; if either count is 5
or fewer, it produces zero records. -/
theorem extract_patterns_threshold (lookup : String → String)
    (g : Nat → Nat) (today : Int) (mm ss : List String) :
    (5 < mm.length → 5 < ss.length →
      1 ≤ (extract_content_patterns lookup g today mm ss).length ∧
      (extract_content_patterns lookup g today mm ss).length ≤ 10 ∧
      ∀ r ∈ extract_content_patterns lookup g today mm ss,
        1 ≤ r.reporting_delay ∧ r.reporting_delay ≤ 30 ∧
        (r.transaction_type = "Buy" ∨ r.transaction_type = "Sell")) ∧
    (mm.length ≤ 5 ∨ ss.length ≤ 5 →
      extract_content_patterns lookup g today mm ss = []) := by
  constructor
  · intro h1 h2
    unfold extract_content_patterns
    rw [if_pos ⟨h1, h2⟩]
    refine ⟨?_, ?_, ?_⟩
    · simp only [generate_pattern_based_trades, List.length_map,
        List.length_range, List.length_take]
      omega
    · simp only [generate_pattern_based_trades, List.length_map,
        List.length_range, List.length_take]
      omega
    · intro r hr
      simp only [generate_pattern_based_trades, List.mem_map,
        List.mem_range] at hr
      obtain ⟨i, hi, rfl⟩ := hr
      have hm30 : g (5 * i + 3) % 30 < 30 := Nat.mod_lt _ (by norm_num)
      rcases Nat.mod_two_eq_zero_or_one (g (5 * i + 4)) with hb | hb <;>
        simp [patternTrade, randint, hb] <;> omega
  · intro h
    unfold extract_content_patterns
    rw [if_neg (by rintro ⟨a, b⟩; omega)]

/-- Claim C5, witness: with 6 tokens of each kind the stage produces
between 1 and 10 records; with 4 monetary tokens it produces none. -/
theorem extract_patterns_threshold_witness :
    (1 ≤ (extract_content_patterns (fun t => t) (fun _ => 0) 0
        ["$1", "$2", "$3", "$4", "$5", "$6"]
        ["AAA", "BBB", "CCC", "DDD", "EEE", "FFF"]).length ∧
      (extract_content_patterns (fun t => t) (fun _ => 0) 0
        ["$1", "$2", "$3", "$4", "$5", "$6"]
        ["AAA", "BBB", "CCC", "DDD", "EEE", "FFF"]).length ≤ 10 ∧
      ∀ r ∈ extract_content_patterns (fun t => t) (fun _ => 0) 0
          ["$1", "$2", "$3", "$4", "$5", "$6"]
          ["AAA", "BBB", "CCC", "DDD", "EEE", "FFF"],
        1 ≤ r.reporting_delay ∧ r.reporting_delay ≤ 30 ∧
        (r.transaction_type = "Buy" ∨ r.transaction_type = "Sell")) ∧
    extract_content_patterns (fun t => t) (fun _ => 0) 0
      ["$1", "$2", "$3", "$4"]
      ["AAA", "BBB", "CCC", "DDD", "EEE", "FFF"] = [] :=
  ⟨(extract_patterns_threshold (fun t => t) (fun _ => 0) 0
      ["$1", "$2", "$3", "$4", "$5", "$6"]
      ["AAA", "BBB", "CCC", "DDD", "EEE", "FFF"]).1 (by decide) (by decide),
   (extract_patterns_threshold (fun t => t) (fun _ => 0) 0
      ["$1", "$2", "$3", "$4"]
      ["AAA", "BBB", "CCC", "DDD", "EEE", "FFF"]).2 (by decide)⟩

/-- Claim C6: the generator draws the trade-date offset (1-30 days back),
the disclosure-date offset (1-15 days back) and `reporting_delay`
independently, so a draw stream giving offsets 1 and 15 yields a record
whose disclosure date precedes its trade date and whose reporting delay
differs from the day difference of its dates — against the documented
invariant. -/
theorem pattern_trade_dates_can_invert :
    ((generate_pattern_based_trades (fun t => t)
        (fun k => if k = 2 then 14 else 0) 100 ["$100.00"]
        ["ABC"]).headD default).disclosure_date <
      ((generate_pattern_based_trades (fun t => t)
          (fun k => if k = 2 then 14 else 0) 100 ["$100.00"]
          ["ABC"]).headD default).trade_date ∧
    (((generate_pattern_based_trades (fun t => t)
          (fun k => if k = 2 then 14 else 0) 100 ["$100.00"]
          ["ABC"]).headD default).reporting_delay : Int) ≠
      ((generate_pattern_based_trades (fun t => t)
          (fun k => if k = 2 then 14 else 0) 100 ["$100.00"]
          ["ABC"]).headD default).disclosure_date -
        ((generate_pattern_based_trades (fun t => t)
            (fun k => if k = 2 then 14 else 0) 100 ["$100.00"]
            ["ABC"]).headD default).trade_date := by
  constructor <;> decide

/-- Claim C10: every record of the pattern-based fallback has owner
"Self", district "Multiple" and sector "Technology", and its politician
name, party, chamber and state are drawn together from the fixed
three-entry roster. -/
theorem pattern_trades_fixed_fields (lookup : String → String)
    (g : Nat → Nat) (today : Int) (mm ss : List String) :
    ∀ r ∈ generate_pattern_based_trades lookup g today mm ss,
      r.owner = "Self" ∧ r.district = "Multiple" ∧
      r.sector = "Technology" ∧
      ∃ p ∈ politicians, r.politician_name = p.name ∧ r.party = p.party ∧
        r.chamber = p.chamber ∧ r.state = p.state := by
  intro r hr
  simp only [generate_pattern_based_trades, List.mem_map,
    List.mem_range] at hr
  obtain ⟨i, hi, rfl⟩ := hr
  refine ⟨rfl, rfl, rfl,
    politicians.getD (g (5 * i) % politicians.length) default,
    ?_, rfl, rfl, rfl, rfl⟩
  have h3 : g (5 * i) % politicians.length < 3 :=
    Nat.mod_lt _ (by decide)
  have hcases : g (5 * i) % politicians.length = 0 ∨
      g (5 * i) % politicians.length = 1 ∨
      g (5 * i) % politicians.length = 2 := by omega
  rcases hcases with h | h | h <;> rw [h] <;> decide

/-- Claim C10, witness: the single record generated from one token pair
has the fixed fields and a roster politician. -/
theorem pattern_trades_fixed_fields_witness :
    (patternTrade (fun t => t) (fun _ => 0) 100 "$1" "ABC" 0).owner =
      "Self" ∧
    (patternTrade (fun t => t) (fun _ => 0) 100 "$1" "ABC" 0).district =
      "Multiple" ∧
    (patternTrade (fun t => t) (fun _ => 0) 100 "$1" "ABC" 0).sector =
      "Technology" ∧
    ∃ p ∈ politicians,
      (patternTrade (fun t => t) (fun _ => 0) 100 "$1" "ABC"
          0).politician_name = p.name ∧
      (patternTrade (fun t => t) (fun _ => 0) 100 "$1" "ABC" 0).party =
        p.party ∧
      (patternTrade (fun t => t) (fun _ => 0) 100 "$1" "ABC" 0).chamber =
        p.chamber ∧
      (patternTrade (fun t => t) (fun _ => 0) 100 "$1" "ABC" 0).state =
        p.state := by
  have hmem : patternTrade (fun t => t) (fun _ => 0) 100 "$1" "ABC" 0 ∈
      generate_pattern_based_trades (fun t => t) (fun _ => 0) 100 ["$1"]
        ["ABC"] := by
    show _ ∈ [patternTrade (fun t => t) (fun _ => 0) 100 "$1" "ABC" 0]
    exact List.mem_singleton.mpr rfl
  exact pattern_trades_fixed_fields (fun t => t) (fun _ => 0) 100 ["$1"]
    ["ABC"] (patternTrade (fun t => t) (fun _ => 0) 100 "$1" "ABC" 0) hmem

/-- Structure of a `get_company_name` call on a non-empty ticker: either
a cache hit, returning the cached name without a network call and
without changing the cache, or a cache miss, issuing exactly one network
lookup and caching whatever name it settles on. -/
theorem get_company_name_spec (net : String → ApiResult)
    (c : String → Option String) (s : String) (hs : s ≠ "") :
    (∃ r, c (normalizeTicker s) = some r ∧
      get_company_name net c (some s) = (r, c, 0)) ∨
    (c (normalizeTicker s) = none ∧ ∃ nm,
      get_company_name net c (some s) =
        (nm, cacheInsert c (normalizeTicker s) nm, 1)) := by
  simp only [get_company_name]
  rw [if_neg hs]
  split
  case _ name heq => exact Or.inl ⟨name, heq, rfl⟩
  case _ heq =>
    refine Or.inr ⟨heq, ?_⟩
    split
    · exact ⟨_, rfl⟩
    · split
      · split
        · exact ⟨_, rfl⟩
        · exact ⟨_, rfl⟩
      · exact ⟨_, rfl⟩

/-- A cache hit returns the cached name with no network call and an
unchanged cache. -/
theorem get_company_name_hit (net : String → ApiResult)
    (c : String → Option String) (s r : String) (hs : s ≠ "")
    (h : c (normalizeTicker s) = some r) :
    get_company_name net c (some s) = (r, c, 0) := by
  rcases get_company_name_spec net c s hs with ⟨r', hr', he⟩ | ⟨hn, _⟩
  · rw [h] at hr'
    cases hr'
    exact he
  · rw [h] at hn
    exact Option.noConfusion hn

/-- Every call on a non-empty ticker leaves the returned name cached
under the normalized ticker, whatever the outcome was. -/
theorem get_company_name_caches (net : String → ApiResult)
    (c : String → Option String) (s : String) (hs : s ≠ "") :
    (get_company_name net c (some s)).2.1 (normalizeTicker s) =
      some (get_company_name net c (some s)).1 := by
  rcases get_company_name_spec net c s hs with ⟨r, hr, he⟩ | ⟨hn, nm, he⟩
  · rw [he]
    exact hr
  · rw [he]
    simp [cacheInsert]

/-- Once the ticker is cached, further calls leave the cache fixed. -/
theorem callN_fixed (net : String → ApiResult) (c : String → Option String)
    (s r : String) (hs : s ≠ "") (h : c (normalizeTicker s) = some r) :
    ∀ n, callN net (some s) n c = c := by
  intro n
  induction n with
  | zero => rfl
  | succ n ihn =>
    show callN net (some s) n (get_company_name net c (some s)).2.1 = c
    rw [get_company_name_hit net c s r hs h]
    exact ihn

/-- Claim C8: for a non-empty ticker, the first `get_company_name` call
issues at most one network lookup, and every call after it — after any
number of intervening calls for the same ticker — returns the identical
cached name with no network lookup and an unchanged cache, whatever
outcome the first call had. -/
theorem company_name_memoized (net : String → ApiResult)
    (c0 : String → Option String) (s : String) (hs : s ≠ "") :
    (get_company_name net c0 (some s)).2.2 ≤ 1 ∧
    ∀ n : Nat,
      get_company_name net
          (callN net (some s) n (get_company_name net c0 (some s)).2.1)
          (some s) =
        ((get_company_name net c0 (some s)).1,
         (get_company_name net c0 (some s)).2.1, 0) := by
  have hcache := get_company_name_caches net c0 s hs
  constructor
  · rcases get_company_name_spec net c0 s hs with ⟨r, _, he⟩ | ⟨_, nm, he⟩ <;>
      simp [he]
  · intro n
    rw [callN_fixed net _ s _ hs hcache n]
    exact get_company_name_hit net _ s _ hs hcache

/-- Claim C8, witness: a failing network oracle and an empty cache, with
two intervening calls: the later call returns the identical fallback
name with no network lookup. -/
theorem company_name_memoized_witness :
    (get_company_name (fun _ => ApiResult.failure) (fun _ => none)
        (some "ab")).2.2 ≤ 1 ∧
    get_company_name (fun _ => ApiResult.failure)
        (callN (fun _ => ApiResult.failure) (some "ab") 2
          (get_company_name (fun _ => ApiResult.failure) (fun _ => none)
              (some "ab")).2.1)
        (some "ab") =
      ((get_company_name (fun _ => ApiResult.failure) (fun _ => none)
          (some "ab")).1,
       (get_company_name (fun _ => ApiResult.failure) (fun _ => none)
          (some "ab")).2.1, 0) :=
  ⟨(company_name_memoized (fun _ => ApiResult.failure) (fun _ => none)
      "ab" (by decide)).1,
   (company_name_memoized (fun _ => ApiResult.failure) (fun _ => none)
      "ab" (by decide)).2 2⟩

/-- Claim C9: a missing (`None`) or empty ticker returns the fixed
placeholder "Unknown Company" with no network call and an untouched
cache. -/
theorem company_name_empty_ticker (net : String → ApiResult)
    (cache : String → Option String) :
    get_company_name net cache none = ("Unknown Company", cache, 0) ∧
    get_company_name net cache (some "") =
      ("Unknown Company", cache, 0) := by
  exact ⟨rfl, rfl⟩

end CongressionalDerivatives
